import Mathlib

/-!
Shallow embedding of the transcript data model, speaker naming, and renderers
of the scribe repository (src/scribe/models.py, src/scribe/cli.py,
src/scribe/utils.py, src/scribe/transcription/deepgram_provider.py), with
theorems settling the specification claims about them.

Python floats are modelled as rationals; Python lists as Lean lists; the
Python dicts keyed on speaker indices as functions guarded by the key bound.
Python `lines.append` sequences become list concatenation in statement order,
and `"\n".join(lines)` becomes `String.intercalate "\n"`.
-/

namespace Scribe

attribute [local semireducible] Rat.mul Rat.inv Rat.add Rat.sub

/-! ## Data model (src/scribe/models.py) -/

/-- Embedding of `Utterance` from src/scribe/models.py: one speech segment.
The Python field `end` is written `«end»` because `end` is a Lean keyword. -/
structure Utterance where
  speaker : Nat
  speaker_name : String := ""
  start : ℚ
  «end» : ℚ
  text : String
deriving DecidableEq, Repr

instance : Inhabited Utterance := ⟨{ speaker := 0, start := 0, «end» := 0, text := "" }⟩

/-- Embedding of `Transcript` from src/scribe/models.py. -/
structure Transcript where
  source_file : String
  duration : ℚ := 0
  speakers : List String := []
  utterances : List Utterance := []
  raw_text : String := ""
deriving DecidableEq, Repr

/-- Embedding of `Summary` from src/scribe/models.py. -/
structure Summary where
  title : String := ""
  summary : String := ""
  key_points : List String := []
  action_items : List String := []
deriving DecidableEq, Repr

/-- Embedding of `ActionItem` from src/scribe/models.py. -/
structure ActionItem where
  description : String
  source : String := ""
  priority : String := "normal"
deriving DecidableEq, Repr

/-! ## Timestamp formatting (src/scribe/utils.py, `format_timestamp`) -/

/-- Python `f"{n:02d}"` for the integers produced by `format_timestamp`:
decimal rendering left-padded with `0` to a minimum width of two. -/
def pad2 (n : ℤ) : String :=
  if 0 ≤ n ∧ n < 10 then "0" ++ toString n else toString n

/-- Python `a % b` for a positive divisor (result sign follows the divisor):
`a - b * ⌊a / b⌋`. -/
def pymod (a b : ℚ) : ℚ := a - b * ⌊a / b⌋

/-- Embedding of `format_timestamp` from src/scribe/utils.py.
`hours = int(seconds // 3600)` is the floor of `seconds / 3600`;
`minutes = int((seconds % 3600) // 60)` and `secs = int(seconds % 60)` use the
Python modulus, whose result lies in `[0, divisor)`, so the `int` truncation
coincides with the floor. -/
def format_timestamp (seconds : ℚ) : String :=
  let hours : ℤ := ⌊seconds / 3600⌋
  let minutes : ℤ := ⌊pymod seconds 3600 / 60⌋
  let secs : ℤ := ⌊pymod seconds 60⌋
  if hours > 0 then
    pad2 hours ++ ":" ++ pad2 minutes ++ ":" ++ pad2 secs
  else
    pad2 minutes ++ ":" ++ pad2 secs

/-! ## Renderers (src/scribe/utils.py) -/

/-- Model of Python `pathlib.Path(p).stem` for the forward-slash paths the
renderer title uses: the final path component without its last extension. -/
def path_stem (p : String) : String :=
  let name := (p.splitOn "/").getLastD ""
  let parts := name.splitOn "."
  if parts.length ≤ 1 then name else String.intercalate "." parts.dropLast

/-- The summary block of `format_transcript_markdown` (src/scribe/utils.py
lines 40-54), one list entry per Python `lines.append`. -/
def summary_lines (s : Summary) : List String :=
  (if s.title ≠ "" then ["## " ++ s.title ++ "\n"] else [])
  ++ (if s.summary ≠ "" then [s.summary ++ "\n"] else [])
  ++ (if s.key_points ≠ [] then
        ["### Key Points\n"] ++ s.key_points.map (fun point => "- " ++ point) ++ [""]
      else [])
  ++ (if s.action_items ≠ [] then
        ["### Action Items\n"] ++ s.action_items.map (fun item => "- [ ] " ++ item) ++ [""]
      else [])

/-- The `lines` list built by `format_transcript_markdown` (src/scribe/utils.py
lines 23-68), one entry per Python `lines.append`, in append order.  Python's
`utt.speaker_name or f"Speaker {utt.speaker}"` falls back exactly when
`speaker_name` is the empty string.

The `raw_text` flag: src/scribe/cli.py calls this renderer with a `raw_text`
keyword argument, but the copy of `format_transcript_markdown` in
src/scribe/utils.py does not take that parameter.  The `raw_text = true` branch
of the utterance loop is therefore modelled from the spec: "timestamps/names
are omitted and only utterance text is emitted (one line per utterance, no
prefix)".  With `raw_text = false` the definition is the src/scribe/utils.py
code unchanged. -/
def transcript_markdown_lines (transcript : Transcript) (summary : Option Summary)
    (raw_text : Bool) : List String :=
  ["# Transcript: " ++ path_stem transcript.source_file ++ "\n"]
  ++ (if transcript.duration > 0 then
        ["**Duration:** " ++ format_timestamp transcript.duration ++ "\n"]
      else [])
  ++ (if transcript.speakers ≠ [] then
        ["**Speakers:** " ++ String.intercalate ", " transcript.speakers ++ "\n"]
      else [])
  ++ (match summary with
      | some s => summary_lines s
      | none => [])
  ++ ["---\n", "## Transcript\n"]
  ++ (if transcript.utterances ≠ [] then
        transcript.utterances.map (fun utt =>
          if raw_text then utt.text
          else
            "**[" ++ format_timestamp utt.start ++ "] "
              ++ (if utt.speaker_name = "" then "Speaker " ++ toString utt.speaker
                  else utt.speaker_name)
              ++ ":** " ++ utt.text ++ "\n")
      else [transcript.raw_text])

/-- Embedding of `format_transcript_markdown` from src/scribe/utils.py:
`"\n".join(lines)` over `transcript_markdown_lines`. -/
def format_transcript_markdown (transcript : Transcript) (summary : Option Summary)
    (raw_text : Bool) : String :=
  String.intercalate "\n" (transcript_markdown_lines transcript summary raw_text)

/-- The `lines` list built by `format_transcript_text` (src/scribe/utils.py
lines 71-81), one entry per Python `lines.append`. -/
def transcript_text_lines (transcript : Transcript) : List String :=
  if transcript.utterances ≠ [] then
    transcript.utterances.map (fun utt =>
      "[" ++ format_timestamp utt.start ++ "] "
        ++ (if utt.speaker_name = "" then "Speaker " ++ toString utt.speaker
            else utt.speaker_name)
        ++ ": " ++ utt.text)
  else [transcript.raw_text]

/-- Embedding of `format_transcript_text` from src/scribe/utils.py. -/
def format_transcript_text (transcript : Transcript) : String :=
  String.intercalate "\n" (transcript_text_lines transcript)

/-- Modelled from the spec: `format_transcript_raw_text` is imported and called
by src/scribe/cli.py (plain-text output under the raw-text flag) but its
definition is absent from src/scribe/utils.py.  Per the spec, with rawText true
"timestamps/names are omitted and only utterance text is emitted (one line per
utterance, no prefix)"; like the other renderers it falls back to `raw_text`
when `utterances` is empty. -/
def format_transcript_raw_text (transcript : Transcript) : String :=
  String.intercalate "\n"
    (if transcript.utterances ≠ [] then
      transcript.utterances.map (fun utt => utt.text)
    else [transcript.raw_text])

/-! ## Speaker naming (src/scribe/cli.py) -/

/-- Embedding of `_assign_speaker_names` from src/scribe/cli.py lines 79-94.
The Python `name_map` is the dict `{i: names[i] if i < len(names) else
f"Speaker {i}" for i in range(len(transcript.speakers))}`; `names.getD i _`
is its value at a key `i < len(speakers)`, and the `if utt.speaker < ...`
guard is the `name_map.get(utt.speaker, f"Speaker {utt.speaker}")` lookup
with its out-of-dict default.  `new_speakers` iterates `sorted(name_map)`,
which is `0, ..., len(speakers) - 1` in order. -/
def _assign_speaker_names (transcript : Transcript) (names : List String) : Transcript :=
  { transcript with
    speakers :=
      (List.range transcript.speakers.length).map
        (fun i => names.getD i ("Speaker " ++ toString i)),
    utterances :=
      transcript.utterances.map (fun utt =>
        { utt with
          speaker_name :=
            if utt.speaker < transcript.speakers.length then
              names.getD utt.speaker ("Speaker " ++ toString utt.speaker)
            else "Speaker " ++ toString utt.speaker }) }

/-- Ascending enumeration of the distinct elements of `l`: the value of Python
`sorted(s)` for the set `s` of elements of `l`. -/
def sorted_distinct (l : List Nat) : List Nat :=
  (List.range (l.foldr max 0 + 1)).filter (fun i => decide (i ∈ l))

/-- Embedding of `_prompt_speaker_names` from src/scribe/cli.py lines 41-76.
The interactive `Prompt.ask` replies are abstracted as `answers : Nat → String`
(the name the operator confirms for a speaker index; `Prompt.ask` substitutes
the default `f"Speaker {idx}"` itself, so `answers` is total).  The Python
`name_map` has one key per distinct speaker index occurring in `utterances`
(the keys of `speaker_samples`), so `sorted(name_map)` is `sorted_distinct`
of the utterance speaker indices, and the `name_map.get(utt.speaker, ...)`
lookup is guarded by membership in those keys. -/
def _prompt_speaker_names (transcript : Transcript) (answers : Nat → String) : Transcript :=
  if transcript.speakers.length ≤ 1 then transcript
  else
    { transcript with
      speakers :=
        (sorted_distinct (transcript.utterances.map (fun u => u.speaker))).map answers,
      utterances :=
        transcript.utterances.map (fun utt =>
          { utt with
            speaker_name :=
              if utt.speaker ∈ transcript.utterances.map (fun u => u.speaker) then
                answers utt.speaker
              else "Speaker " ++ toString utt.speaker }) }

/-! ## Provider response parsing
(src/scribe/transcription/deepgram_provider.py, `_parse_response`) -/

/-- One utterance record of the provider response, with the fields
`_parse_response` reads (`speaker`, `start`, `end`, `transcript`). -/
structure RespUtterance where
  speaker : Nat
  start : ℚ
  «end» : ℚ
  transcript : String
deriving DecidableEq, Repr

/-- Embedding of `DeepgramProvider._parse_response` from
src/scribe/transcription/deepgram_provider.py lines 64-104.  The response
fields already extracted by the surrounding code are passed directly:
`duration` (the metadata duration, defaulting to 0 upstream), `raw_text`
(`alt.transcript or ""`), and the utterance list.  `speaker_set` collects the
distinct speaker indices of the response and `speakers` is
`[f"Speaker {i}" for i in sorted(speaker_set)]`. -/
def _parse_response (resp_utterances : List RespUtterance) (source_file : String)
    (duration : ℚ) (raw_text : String) : Transcript :=
  { source_file := source_file
    duration := duration
    speakers :=
      (sorted_distinct (resp_utterances.map (fun u => u.speaker))).map
        (fun i => "Speaker " ++ toString i)
    utterances :=
      resp_utterances.map (fun u =>
        { speaker := u.speaker, speaker_name := "", start := u.start,
          «end» := u.«end», text := u.transcript })
    raw_text := raw_text }

/-! ## Weekly digest renderer (src/scribe/utils.py, `format_weekly_todo_markdown`) -/

/-- The `lines` list built by `format_weekly_todo_markdown`
(src/scribe/utils.py lines 112-146), one entry per Python `lines.append`.
Each group is the order-preserving filter of the input by priority; a group's
block is emitted only when that group is non-empty (Python `if high:`). -/
def weekly_todo_lines (action_items : List ActionItem) (week : String) : List String :=
  let high := action_items.filter (fun a => a.priority == "high")
  let normal := action_items.filter (fun a => a.priority == "normal")
  let low := action_items.filter (fun a => a.priority == "low")
  [(if week ≠ "" then "# Weekly To-Do — Week " ++ week else "# Weekly To-Do") ++ "\n"]
  ++ (if high ≠ [] then
        ["## High Priority\n"]
        ++ high.map (fun item =>
            "- [ ] " ++ item.description
              ++ (if item.source ≠ "" then " *(from " ++ item.source ++ ")*" else ""))
        ++ [""]
      else [])
  ++ (if normal ≠ [] then
        ["## Tasks\n"]
        ++ normal.map (fun item =>
            "- [ ] " ++ item.description
              ++ (if item.source ≠ "" then " *(from " ++ item.source ++ ")*" else ""))
        ++ [""]
      else [])
  ++ (if low ≠ [] then
        ["## Low Priority\n"]
        ++ low.map (fun item =>
            "- [ ] " ++ item.description
              ++ (if item.source ≠ "" then " *(from " ++ item.source ++ ")*" else ""))
        ++ [""]
      else [])

/-- Embedding of `format_weekly_todo_markdown` from src/scribe/utils.py. -/
def format_weekly_todo_markdown (action_items : List ActionItem) (week : String) : String :=
  String.intercalate "\n" (weekly_todo_lines action_items week)

/-- Spec-side rendering of one digest item: "each line shows the description
and, if `source` is non-empty, an italic \"(from \x7bsource\x7d)\" suffix". -/
def todo_line_spec (a : ActionItem) : String :=
  "- [ ] " ++ a.description ++ (if a.source = "" then "" else " *(from " ++ a.source ++ ")*")

/-- Spec-side rendering of one digest group: header then the group's items in
input order; "empty groups are omitted entirely". -/
def todo_section_spec (header : String) (group : List ActionItem) : List String :=
  if group = [] then [] else [header] ++ group.map todo_line_spec ++ [""]

/-- Spec-side weekly digest: the three priority groups as order-preserving
filters, emitted in the fixed order High Priority, Tasks, Low Priority. -/
def weekly_todo_spec (action_items : List ActionItem) (week : String) : String :=
  String.intercalate "\n"
    ([(if week = "" then "# Weekly To-Do" else "# Weekly To-Do — Week " ++ week) ++ "\n"]
      ++ todo_section_spec "## High Priority\n"
          (action_items.filter (fun a => a.priority == "high"))
      ++ todo_section_spec "## Tasks\n"
          (action_items.filter (fun a => a.priority == "normal"))
      ++ todo_section_spec "## Low Priority\n"
          (action_items.filter (fun a => a.priority == "low")))

/-- Spec-side timestamp format with the hour component zero-padded to two
digits, branching on `3600 ≤ seconds`, for comparison with
`format_timestamp`. -/
def format_timestamp_spec (seconds : ℚ) : String :=
  if 3600 ≤ seconds then
    pad2 ⌊seconds / 3600⌋ ++ ":" ++ pad2 ⌊pymod seconds 3600 / 60⌋ ++ ":"
      ++ pad2 ⌊pymod seconds 60⌋
  else
    pad2 ⌊pymod seconds 3600 / 60⌋ ++ ":" ++ pad2 ⌊pymod seconds 60⌋

/-! ## The batch command (src/scribe/cli.py, `batch`) -/

/-- Observable outcome of one run of the `batch` command: the process exit
code, the warnings printed, the output file written (path and contents), and
whether the consolidation collaborator `batch_action_items` was invoked. -/
structure BatchResult where
  exit_code : Nat
  warnings : List String
  output_file : Option (String × String)
  consolidator_called : Bool
deriving DecidableEq, Repr

/-- Embedding of the control flow of the `batch` command from src/scribe/cli.py
lines 288-341, with the effects passed explicitly: `dir_exists` is
`directory.exists()`, `json_files` is the sorted `*_actions.json` glob result
paired with each file's parse outcome (`none` for a `JSONDecodeError`/`OSError`,
which the command skips with a warning), `consolidate` is the external
`batch_action_items` collaborator, and `output`/`week` are the CLI options.
`typer.Exit(n)` becomes a result with exit code `n` and nothing written. -/
def batch (dir_exists : Bool) (json_files : List (String × Option (List ActionItem)))
    (consolidate : List ActionItem → List ActionItem) (output : Option String)
    (week : String) : BatchResult :=
  if ¬ dir_exists then
    { exit_code := 1, warnings := ["Directory not found."],
      output_file := none, consolidator_called := false }
  else if json_files = [] then
    { exit_code := 0, warnings := ["No action JSON files found in directory."],
      output_file := none, consolidator_called := false }
  else
    let skip_warnings :=
      (json_files.filter (fun jf => jf.2 = none)).map (fun jf => "Skipping " ++ jf.1)
    let all_items := (json_files.map (fun jf => (jf.2).getD [])).flatten
    if all_items = [] then
      { exit_code := 0, warnings := skip_warnings ++ ["No action items found."],
        output_file := none, consolidator_called := false }
    else
      let out_path :=
        match output with
        | some p => p
        | none => "output/weekly_todo" ++ (if week ≠ "" then "_week" ++ week else "") ++ ".md"
      { exit_code := 0, warnings := skip_warnings,
        output_file := some (out_path, format_weekly_todo_markdown (consolidate all_items) week),
        consolidator_called := true }

/-- Concrete one-utterance transcript (its utterance has the default empty
`speaker_name`) used as a witness input. -/
def sample_transcript_hi : Transcript :=
  { source_file := "m.mp4", speakers := ["Speaker 0"],
    utterances := [{ speaker := 0, start := 0, «end» := 1, text := "hi" }] }

/-- Concrete one-utterance transcript used as a witness input for raw-text
rendering. -/
def sample_transcript_hello : Transcript :=
  { source_file := "m.mp4", duration := 0, speakers := ["Speaker 0"],
    utterances := [{ speaker := 0, start := 0, «end» := 1, text := "hello" }],
    raw_text := "hello" }

/-! ## Theorems -/

/-- C2: the claim fails on the code: `format_timestamp` zero-pads the hour
component (`f"{hours:02d}"`), so `format_timestamp(3661)` is `"01:01:01"`,
not the claimed `"1:01:01"`. -/
theorem format_timestamp_3661_padded :
    format_timestamp 3661 = "01:01:01" ∧ format_timestamp 3661 ≠ "1:01:01" := by
  constructor
  · decide
  · decide

/-- C2 (amended): `format_timestamp` integer-truncates seconds and returns
`HH:MM:SS` with the hour component zero-padded to 2 digits when
`seconds ≥ 3600`, else `MM:SS`, all components zero-padded to 2 digits; in
particular `format_timestamp 0 = "00:00"`, `format_timestamp 59 = "00:59"`,
`format_timestamp 60 = "01:00"`, and `format_timestamp 3661 = "01:01:01"`. -/
theorem format_timestamp_correct :
    (format_timestamp 0 = "00:00" ∧ format_timestamp 59 = "00:59" ∧
     format_timestamp 60 = "01:00" ∧ format_timestamp 3661 = "01:01:01") ∧
    ∀ seconds : ℚ, format_timestamp seconds = format_timestamp_spec seconds := by
  refine ⟨⟨by decide, by decide, by decide, by decide⟩, ?_⟩
  intro q
  have h : 0 < ⌊q / 3600⌋ ↔ 3600 ≤ q := by
    rw [Int.lt_iff_add_one_le, zero_add, Int.le_floor, Int.cast_one,
      le_div_iff₀ (by norm_num : (0:ℚ) < 3600), one_mul]
  simp only [format_timestamp, format_timestamp_spec, gt_iff_lt]
  split_ifs with h1 h2 h2
  · rfl
  · exact absurd (h.mp h1) h2
  · exact absurd (h.mpr h2) h1
  · rfl

/-- C9: when the batch command finds zero matching sidecar files in an
existing directory it exits with code 0, emits the no-sidecars warning,
writes no output file, and never calls the consolidation collaborator. -/
theorem batch_no_sidecars (consolidate : List ActionItem → List ActionItem)
    (output : Option String) (week : String) :
    (batch true [] consolidate output week).exit_code = 0 ∧
    (batch true [] consolidate output week).warnings
      = ["No action JSON files found in directory."] ∧
    (batch true [] consolidate output week).output_file = none ∧
    (batch true [] consolidate output week).consolidator_called = false := by
  refine ⟨rfl, rfl, rfl, rfl⟩

/-- C4: `_assign_speaker_names` (a total function) returns a transcript whose
speakers list has the length of the original and whose entry at each index
`i < len(original speakers)` is `names[i]` when `i < len(names)` and the
placeholder `"Speaker i"` otherwise. -/
theorem assign_names_speakers (t : Transcript) (names : List String) (i : Nat)
    (hi : i < t.speakers.length) :
    (_assign_speaker_names t names).speakers.length = t.speakers.length ∧
    (_assign_speaker_names t names).speakers.getD i ""
      = (if i < names.length then names.getD i "" else "Speaker " ++ toString i) := by
  constructor
  · simp [_assign_speaker_names]
  · simp only [_assign_speaker_names, List.getD_eq_getElem?_getD, List.getElem?_map,
      List.getElem?_range hi]
    by_cases hn : i < names.length
    · simp [List.getElem?_eq_getElem hn, if_pos hn]
    · simp [List.getElem?_eq_none (by omega : names.length ≤ i), if_neg hn]

/-- C4 witness: the amended fields at a concrete transcript, two speakers and
a one-name list. -/
theorem assign_names_speakers_witness :
    (_assign_speaker_names
        { source_file := "a.wav", speakers := ["Speaker 0", "Speaker 1"] }
        ["Alice"]).speakers.length
      = ({ source_file := "a.wav",
           speakers := ["Speaker 0", "Speaker 1"] : Transcript }).speakers.length ∧
    (_assign_speaker_names
        { source_file := "a.wav", speakers := ["Speaker 0", "Speaker 1"] }
        ["Alice"]).speakers.getD 1 ""
      = (if 1 < (["Alice"] : List String).length then (["Alice"] : List String).getD 1 ""
         else "Speaker " ++ toString 1) :=
  assign_names_speakers
    { source_file := "a.wav", speakers := ["Speaker 0", "Speaker 1"] }
    ["Alice"] 1 (by decide)

/-- C5: after `_assign_speaker_names`, every utterance's `speaker_name` equals
the result's speakers list indexed by that utterance's speaker index (the
indexing hypothesis `hs` states the index is in range of the result's
speakers list). -/
theorem assign_names_speaker_name_consistent (t : Transcript) (names : List String)
    (i : Nat) (hi : i < (_assign_speaker_names t names).utterances.length)
    (hs : ((_assign_speaker_names t names).utterances.getD i default).speaker
            < (_assign_speaker_names t names).speakers.length) :
    ((_assign_speaker_names t names).utterances.getD i default).speaker_name
      = (_assign_speaker_names t names).speakers.getD
          (((_assign_speaker_names t names).utterances.getD i default).speaker) "" := by
  simp only [_assign_speaker_names, List.length_map, List.length_range] at hi hs ⊢
  simp only [List.getD_eq_getElem?_getD, List.getElem?_map, List.getElem?_eq_getElem hi,
    Option.map_some', Option.getD_some] at hs ⊢
  simp [hs, List.getD_eq_getElem?_getD, List.getElem?_map, List.getElem?_range hs]

/-- C5 witness: the consistency equation at a concrete two-speaker transcript
with a one-name list, at utterance index 1. -/
theorem assign_names_speaker_name_consistent_witness :
    ((_assign_speaker_names
        { source_file := "a.wav", speakers := ["Speaker 0", "Speaker 1"],
          utterances := [{ speaker := 0, start := 0, «end» := 1, text := "x" },
                         { speaker := 1, start := 1, «end» := 2, text := "y" }] }
        ["Alice"]).utterances.getD 1 default).speaker_name
      = (_assign_speaker_names
          { source_file := "a.wav", speakers := ["Speaker 0", "Speaker 1"],
            utterances := [{ speaker := 0, start := 0, «end» := 1, text := "x" },
                           { speaker := 1, start := 1, «end» := 2, text := "y" }] }
          ["Alice"]).speakers.getD
          (((_assign_speaker_names
              { source_file := "a.wav", speakers := ["Speaker 0", "Speaker 1"],
                utterances := [{ speaker := 0, start := 0, «end» := 1, text := "x" },
                               { speaker := 1, start := 1, «end» := 2, text := "y" }] }
              ["Alice"]).utterances.getD 1 default).speaker) "" :=
  assign_names_speaker_name_consistent
    { source_file := "a.wav", speakers := ["Speaker 0", "Speaker 1"],
      utterances := [{ speaker := 0, start := 0, «end» := 1, text := "x" },
                     { speaker := 1, start := 1, «end» := 2, text := "y" }] }
    ["Alice"] 1 (by decide) (by decide)

/-- C6: `_assign_speaker_names` is idempotent: applying it twice with the same
name list yields a structurally equal transcript. -/
theorem assign_names_idempotent (t : Transcript) (names : List String) :
    _assign_speaker_names (_assign_speaker_names t names) names
      = _assign_speaker_names t names := by
  simp only [_assign_speaker_names, List.length_map, List.length_range, List.map_map]
  rfl

/-- C8: `_assign_speaker_names` preserves `source_file`, `duration`,
`raw_text`, the number and order of utterances, and each utterance's
`speaker`, `start`, `end` and `text`; only the speakers list and the
utterances' `speaker_name` fields are rebuilt, on a copy of the input. -/
theorem assign_names_frame (t : Transcript) (names : List String) :
    (_assign_speaker_names t names).source_file = t.source_file ∧
    (_assign_speaker_names t names).duration = t.duration ∧
    (_assign_speaker_names t names).raw_text = t.raw_text ∧
    (_assign_speaker_names t names).utterances.length = t.utterances.length ∧
    ∀ i : Nat,
      ((_assign_speaker_names t names).utterances.getD i default).speaker
          = (t.utterances.getD i default).speaker ∧
      ((_assign_speaker_names t names).utterances.getD i default).start
          = (t.utterances.getD i default).start ∧
      ((_assign_speaker_names t names).utterances.getD i default).«end»
          = (t.utterances.getD i default).«end» ∧
      ((_assign_speaker_names t names).utterances.getD i default).text
          = (t.utterances.getD i default).text := by
  refine ⟨rfl, rfl, rfl, by simp [_assign_speaker_names], ?_⟩
  intro i
  by_cases hi : i < t.utterances.length
  · simp [_assign_speaker_names, List.getD_eq_getElem?_getD, List.getElem?_map,
      List.getElem?_eq_getElem hi]
  · simp [_assign_speaker_names, List.getD_eq_getElem?_getD, List.getElem?_map,
      List.getElem?_eq_none (show t.utterances.length ≤ i by omega)]

/-- C3: the claim fails on the code: the provider builds one placeholder per
distinct speaker index, so a response whose only utterance carries speaker
index 1 yields a one-element speakers list, and after `_assign_speaker_names`
the utterance's index 1 is not below the speakers list length 1. -/
theorem naming_speaker_index_invariant_cex :
    ¬ (∀ u ∈ (_assign_speaker_names
          (_parse_response [{ speaker := 1, start := 0, «end» := 1, transcript := "hi" }]
            "a.wav" 1 "hi") []).utterances,
        u.speaker < (_assign_speaker_names
          (_parse_response [{ speaker := 1, start := 0, «end» := 1, transcript := "hi" }]
            "a.wav" 1 "hi") []).speakers.length) := by
  decide

/-- C3 (amended): for a provider transcript whose distinct speaker indices
form a contiguous range starting at 0 (every response speaker index is below
the number of distinct indices), both naming operations yield a transcript in
which every utterance's speaker index is below the length of the speakers
list. -/
theorem naming_speaker_index_invariant
    (resp : List RespUtterance) (source_file : String) (duration : ℚ)
    (raw_text : String) (names : List String) (answers : Nat → String)
    (h : ∀ s ∈ resp.map (fun u => u.speaker),
          s < (sorted_distinct (resp.map (fun u => u.speaker))).length) :
    (∀ u ∈ (_assign_speaker_names
        (_parse_response resp source_file duration raw_text) names).utterances,
      u.speaker < (_assign_speaker_names
        (_parse_response resp source_file duration raw_text) names).speakers.length) ∧
    (∀ u ∈ (_prompt_speaker_names
        (_parse_response resp source_file duration raw_text) answers).utterances,
      u.speaker < (_prompt_speaker_names
        (_parse_response resp source_file duration raw_text) answers).speakers.length) := by
  constructor
  · intro u hu
    simp only [_assign_speaker_names, _parse_response, List.length_map,
      List.length_range, List.map_map, List.mem_map] at hu ⊢
    obtain ⟨r, hr, rfl⟩ := hu
    simpa using h r.speaker (List.mem_map_of_mem _ hr)
  · intro u hu
    simp only [_prompt_speaker_names, _parse_response] at hu ⊢
    by_cases hle :
        ((sorted_distinct (resp.map (fun u => u.speaker))).map
          (fun i => "Speaker " ++ toString i)).length ≤ 1
    · rw [if_pos hle] at hu ⊢
      simp only [List.mem_map, List.length_map] at hu ⊢
      obtain ⟨r, hr, rfl⟩ := hu
      simpa using h r.speaker (List.mem_map_of_mem _ hr)
    · rw [if_neg hle] at hu ⊢
      simp only [List.mem_map, List.length_map, List.map_map] at hu ⊢
      obtain ⟨r, hr, rfl⟩ := hu
      simpa using h r.speaker (List.mem_map_of_mem _ hr)

/-- C3 witness: the amended invariant at a concrete two-speaker response with
contiguous indices 0 and 1. -/
theorem naming_speaker_index_invariant_witness :
    (∀ u ∈ (_assign_speaker_names
        (_parse_response [{ speaker := 0, start := 0, «end» := 1, transcript := "a" },
                          { speaker := 1, start := 1, «end» := 2, transcript := "b" }]
          "a.wav" 2 "a b") ["Alice"]).utterances,
      u.speaker < (_assign_speaker_names
        (_parse_response [{ speaker := 0, start := 0, «end» := 1, transcript := "a" },
                          { speaker := 1, start := 1, «end» := 2, transcript := "b" }]
          "a.wav" 2 "a b") ["Alice"]).speakers.length) ∧
    (∀ u ∈ (_prompt_speaker_names
        (_parse_response [{ speaker := 0, start := 0, «end» := 1, transcript := "a" },
                          { speaker := 1, start := 1, «end» := 2, transcript := "b" }]
          "a.wav" 2 "a b") (fun i => "Name " ++ toString i)).utterances,
      u.speaker < (_prompt_speaker_names
        (_parse_response [{ speaker := 0, start := 0, «end» := 1, transcript := "a" },
                          { speaker := 1, start := 1, «end» := 2, transcript := "b" }]
          "a.wav" 2 "a b") (fun i => "Name " ++ toString i)).speakers.length) :=
  naming_speaker_index_invariant
    [{ speaker := 0, start := 0, «end» := 1, transcript := "a" },
     { speaker := 1, start := 1, «end» := 2, transcript := "b" }]
    "a.wav" 2 "a b" ["Alice"] (fun i => "Name " ++ toString i) (by decide)

/-- C7: the weekly digest renderer equals its spec-side description — the
three priority groups as order-preserving filters emitted in the fixed order
High Priority, Tasks, Low Priority, one line per item with the italic
"(from source)" suffix exactly when `source` is non-empty, empty groups
omitted — and when every priority is one of high/normal/low the three group
sizes sum to the input size, so every item lands in exactly one group. -/
theorem weekly_digest_partition (action_items : List ActionItem) (week : String)
    (h : ∀ a ∈ action_items,
        a.priority = "high" ∨ a.priority = "normal" ∨ a.priority = "low") :
    format_weekly_todo_markdown action_items week = weekly_todo_spec action_items week ∧
    (action_items.filter (fun a => a.priority == "high")).length
      + (action_items.filter (fun a => a.priority == "normal")).length
      + (action_items.filter (fun a => a.priority == "low")).length
      = action_items.length := by
  constructor
  · have hline : todo_line_spec = fun a : ActionItem =>
        "- [ ] " ++ a.description
          ++ (if a.source = "" then "" else " *(from " ++ a.source ++ ")*") := rfl
    simp only [format_weekly_todo_markdown, weekly_todo_lines, weekly_todo_spec,
      todo_section_spec, ne_eq, ite_not, ← hline]
  · revert h
    induction action_items with
    | nil => intro _; simp
    | cons a l ih =>
      intro h
      have hl : ∀ x ∈ l, x.priority = "high" ∨ x.priority = "normal" ∨ x.priority = "low" :=
        fun x hx => h x (List.mem_cons_of_mem a hx)
      have hsum := ih hl
      have ha := h a (List.mem_cons_self a l)
      rcases ha with ha | ha | ha <;> simp [List.filter_cons, ha] <;> omega

/-- C7 witness: the digest properties at a concrete three-item list with one
item of each priority. -/
theorem weekly_digest_partition_witness :
    format_weekly_todo_markdown
        [{ description := "a", source := "s1", priority := "high" },
         { description := "b", priority := "normal" },
         { description := "c", priority := "low" }] "3"
      = weekly_todo_spec
        [{ description := "a", source := "s1", priority := "high" },
         { description := "b", priority := "normal" },
         { description := "c", priority := "low" }] "3" ∧
    (([{ description := "a", source := "s1", priority := "high" },
       { description := "b", priority := "normal" },
       { description := "c", priority := "low" }] : List ActionItem).filter
        (fun a => a.priority == "high")).length
      + (([{ description := "a", source := "s1", priority := "high" },
           { description := "b", priority := "normal" },
           { description := "c", priority := "low" }] : List ActionItem).filter
          (fun a => a.priority == "normal")).length
      + (([{ description := "a", source := "s1", priority := "high" },
           { description := "b", priority := "normal" },
           { description := "c", priority := "low" }] : List ActionItem).filter
          (fun a => a.priority == "low")).length
      = ([{ description := "a", source := "s1", priority := "high" },
          { description := "b", priority := "normal" },
          { description := "c", priority := "low" }] : List ActionItem).length :=
  weekly_digest_partition
    [{ description := "a", source := "s1", priority := "high" },
     { description := "b", priority := "normal" },
     { description := "c", priority := "low" }] "3" (by decide)

/-- C1: with the raw-text flag, both the plain-text renderer and the markdown
renderer emit, as the transcript body, exactly the utterance texts, one line
per utterance — no timestamp `[` marker and no speaker-name prefix is added,
so when no utterance text itself contains `[`, no body line contains `[`. -/
theorem raw_text_rendering (t : Transcript) (summary : Option Summary)
    (hne : t.utterances ≠ [])
    (hbr : ∀ u ∈ t.utterances, '[' ∉ u.text.data) :
    format_transcript_raw_text t
        = String.intercalate "\n" (t.utterances.map (fun u => u.text)) ∧
    (∃ pre, transcript_markdown_lines t summary true
        = pre ++ t.utterances.map (fun u => u.text)) ∧
    (∀ line ∈ t.utterances.map (fun u => u.text), '[' ∉ line.data) := by
  refine ⟨?_, ?_, ?_⟩
  · simp [format_transcript_raw_text, hne]
  · refine ⟨["# Transcript: " ++ path_stem t.source_file ++ "\n"]
      ++ (if t.duration > 0 then
            ["**Duration:** " ++ format_timestamp t.duration ++ "\n"] else [])
      ++ (if t.speakers ≠ [] then
            ["**Speakers:** " ++ String.intercalate ", " t.speakers ++ "\n"] else [])
      ++ (match summary with | some s => summary_lines s | none => [])
      ++ ["---\n", "## Transcript\n"], ?_⟩
    simp [transcript_markdown_lines, hne]
  · intro line hline
    obtain ⟨u, hu, rfl⟩ := List.mem_map.mp hline
    exact hbr u hu

/-- C1 witness: the raw-text rendering properties at a concrete one-utterance
transcript. -/
theorem raw_text_rendering_witness :
    format_transcript_raw_text sample_transcript_hello
        = String.intercalate "\n"
            (sample_transcript_hello.utterances.map (fun u => u.text)) ∧
    (∃ pre, transcript_markdown_lines sample_transcript_hello none true
        = pre ++ sample_transcript_hello.utterances.map (fun u => u.text)) ∧
    (∀ line ∈ sample_transcript_hello.utterances.map (fun u => u.text),
      '[' ∉ line.data) :=
  raw_text_rendering sample_transcript_hello none (by decide) (by decide)

/-- C10: for an utterance whose `speaker_name` is empty, the plain-text and
markdown renderers display the fallback label `"Speaker i"` (with `i` the
utterance's speaker index) in the speaker-name position of that utterance's
line of the transcript body. -/
theorem empty_speaker_name_fallback (t : Transcript) (summary : Option Summary)
    (i : Nat) (hi : i < t.utterances.length)
    (hname : (t.utterances.getD i default).speaker_name = "") :
    (transcript_text_lines t).getD i ""
        = "[" ++ format_timestamp (t.utterances.getD i default).start ++ "] "
          ++ ("Speaker " ++ toString (t.utterances.getD i default).speaker)
          ++ ": " ++ (t.utterances.getD i default).text ∧
    ∃ pre body, transcript_markdown_lines t summary false = pre ++ body
        ∧ body.length = t.utterances.length
        ∧ body.getD i ""
            = "**[" ++ format_timestamp (t.utterances.getD i default).start ++ "] "
              ++ ("Speaker " ++ toString (t.utterances.getD i default).speaker)
              ++ ":** " ++ (t.utterances.getD i default).text ++ "\n" := by
  have hne : t.utterances ≠ [] := by
    intro hcon
    rw [hcon] at hi
    simp at hi
  have hgd : t.utterances.getD i default = t.utterances[i] := by
    rw [List.getD_eq_getElem?_getD, List.getElem?_eq_getElem hi, Option.getD_some]
  rw [hgd] at hname ⊢
  constructor
  · simp only [transcript_text_lines, if_pos hne]
    rw [List.getD_eq_getElem?_getD, List.getElem?_map, List.getElem?_eq_getElem hi,
      Option.map_some', Option.getD_some, if_pos hname]
  · refine ⟨["# Transcript: " ++ path_stem t.source_file ++ "\n"]
      ++ (if t.duration > 0 then
            ["**Duration:** " ++ format_timestamp t.duration ++ "\n"] else [])
      ++ (if t.speakers ≠ [] then
            ["**Speakers:** " ++ String.intercalate ", " t.speakers ++ "\n"] else [])
      ++ (match summary with | some s => summary_lines s | none => [])
      ++ ["---\n", "## Transcript\n"],
      t.utterances.map (fun utt =>
        "**[" ++ format_timestamp utt.start ++ "] "
          ++ (if utt.speaker_name = "" then "Speaker " ++ toString utt.speaker
              else utt.speaker_name)
          ++ ":** " ++ utt.text ++ "\n"), ?_, ?_, ?_⟩
    · simp [transcript_markdown_lines, hne]
    · simp
    · rw [List.getD_eq_getElem?_getD, List.getElem?_map, List.getElem?_eq_getElem hi,
        Option.map_some', Option.getD_some, if_pos hname]

/-- C10 witness: the fallback label at a concrete transcript whose single
utterance has an empty `speaker_name`. -/
theorem empty_speaker_name_fallback_witness :
    (transcript_text_lines sample_transcript_hi).getD 0 ""
        = "[" ++ format_timestamp
              ((sample_transcript_hi.utterances.getD 0 default).start) ++ "] "
          ++ ("Speaker "
              ++ toString ((sample_transcript_hi.utterances.getD 0 default).speaker))
          ++ ": " ++ (sample_transcript_hi.utterances.getD 0 default).text ∧
    ∃ pre body, transcript_markdown_lines sample_transcript_hi none false = pre ++ body
        ∧ body.length = sample_transcript_hi.utterances.length
        ∧ body.getD 0 ""
            = "**[" ++ format_timestamp
                  ((sample_transcript_hi.utterances.getD 0 default).start) ++ "] "
              ++ ("Speaker "
                  ++ toString ((sample_transcript_hi.utterances.getD 0 default).speaker))
              ++ ":** " ++ (sample_transcript_hi.utterances.getD 0 default).text ++ "\n" :=
  empty_speaker_name_fallback sample_transcript_hi none 0 (by decide) (by decide)

end Scribe
